import Mathlib

set_option maxRecDepth 8000

deriving instance DecidableEq for Except

namespace Rechner

/-- Whitespace predicate used by the Python `str.strip` call in
`SafeEvaluator.evaluate` (ASCII whitespace: space, tab, LF, VT, FF, CR). -/
def isPySpace (c : Char) : Bool :=
  c == ' ' || c == '\t' || c == '\n' || c == Char.ofNat 11 || c == Char.ofNat 12 || c == '\r'

/-- `expression.replace(" ", "")` from `SafeEvaluator.evaluate`: a single-character
pattern replace with the empty string is exactly a filter. -/
def removeSpaces (l : List Char) : List Char :=
  l.filter (fun c => c ≠ ' ')

/-- One character of `expression.replace(",", ".")`. -/
def commaToDot (c : Char) : Char :=
  if c = ',' then '.' else c

/-- `expression.replace(",", ".")` from `SafeEvaluator.evaluate`. -/
def replaceCommas (l : List Char) : List Char :=
  l.map commaToDot

/-- Python `str.strip()`: drop leading and trailing whitespace. -/
def pyStrip (l : List Char) : List Char :=
  ((l.dropWhile isPySpace).reverse.dropWhile isPySpace).reverse

/-- The normalization performed at the top of `SafeEvaluator.evaluate`:
`expression.replace(" ", "").replace(",", ".").strip()`. -/
def normalize (l : List Char) : List Char :=
  pyStrip (replaceCommas (removeSpaces l))

/-- Python exceptions that can arise inside the `try` block of
`SafeEvaluator.evaluate`.  `syntaxError` stands for the SyntaxError raised by
`ast.parse`; `valueError` carries the message of a ValueError raised by the
code itself; `typeError` stands for the TypeError raised when `float()` is
applied to the complex number produced by a negative base raised to a
fractional power; `unmodeledPow` marks the single modelling boundary: a
positive base raised to a non-integer exponent, where CPython returns an
irrational binary64 that an exact-rational embedding cannot represent (no
claim evaluates such an input). -/
inductive PyExc where
  | syntaxError
  | zeroDivisionError
  | valueError (msg : String)
  | typeError
  | unmodeledPow
deriving DecidableEq

/-- An exact rational as an unreduced fraction of integers.  Python float
values and arithmetic are idealized as exact rationals; the fraction form
(rather than `ℚ` directly) keeps every operation a plain `Int` computation
that the kernel can evaluate, with `Frac.toQ` giving the mathematical
value.  Invariant maintained by all constructions: `den ≠ 0`. -/
structure Frac where
  num : ℤ
  den : ℤ
deriving DecidableEq

/-- The rational value of a fraction. -/
def Frac.toQ (f : Frac) : ℚ := (f.num : ℚ) / (f.den : ℚ)

/-- Embed an integer. -/
def Frac.ofInt (n : ℤ) : Frac := ⟨n, 1⟩

/-- Exact addition. -/
def Frac.add (a b : Frac) : Frac := ⟨a.num * b.den + b.num * a.den, a.den * b.den⟩

/-- Exact subtraction. -/
def Frac.sub (a b : Frac) : Frac := ⟨a.num * b.den - b.num * a.den, a.den * b.den⟩

/-- Exact multiplication. -/
def Frac.mul (a b : Frac) : Frac := ⟨a.num * b.num, a.den * b.den⟩

/-- Exact division (the caller checks the divisor for zero first, as the
Python code lets ZeroDivisionError escape before any result is built). -/
def Frac.div (a b : Frac) : Frac := ⟨a.num * b.den, a.den * b.num⟩

/-- Exact negation. -/
def Frac.neg (a : Frac) : Frac := ⟨-a.num, a.den⟩

/-- Zero test (valid because `den ≠ 0`). -/
def Frac.isZero (a : Frac) : Bool := a.num == 0

/-- Negativity test, robust to a negative denominator. -/
def Frac.isNeg (a : Frac) : Bool := a.num * a.den < 0

/-- Floor of the value (`Int.fdiv` rounds toward negative infinity and is
correct for either sign of the denominator). -/
def Frac.floor (a : Frac) : ℤ := Int.fdiv a.num a.den

/-- Whether the value is an integer (exponents like `2.0` in `x ** 2.0`). -/
def Frac.isInt (a : Frac) : Bool := Int.fmod a.num a.den == 0

/-- Exact integer power (for a negative exponent the base is known to be
nonzero at every call site). -/
def Frac.pow (a : Frac) (n : ℤ) : Frac :=
  if 0 ≤ n then ⟨a.num ^ n.toNat, a.den ^ n.toNat⟩
  else ⟨a.den ^ (-n).toNat, a.num ^ (-n).toNat⟩

/-- A Python object stored in an `ast.Constant` node of the parsed tree:
the literal grammar produces int and float constants, and the keywords
`True`/`False`/`None` produce bool and NoneType constants. -/
inductive PyVal where
  | intv (n : ℤ)
  | floatv (f : Frac)
  | boolv (b : Bool)
  | nonev
deriving DecidableEq

/-- Value of an ASCII decimal digit. -/
def digitVal (c : Char) : Nat := c.toNat - 48

/-- Hexadecimal digit test (for `0x` literals). -/
def isHexDigit (c : Char) : Bool :=
  c.isDigit || ('a' ≤ c && c ≤ 'f') || ('A' ≤ c && c ≤ 'F')

/-- Value of a hexadecimal digit. -/
def hexVal (c : Char) : Nat :=
  if c.isDigit then digitVal c
  else if 'a' ≤ c && c ≤ 'f' then c.toNat - 87
  else c.toNat - 55

/-- Octal digit test (for `0o` literals). -/
def isOctDigit (c : Char) : Bool := '0' ≤ c && c ≤ '7'

/-- Binary digit test (for `0b` literals). -/
def isBinDigit (c : Char) : Bool := c == '0' || c == '1'

/-- Reads a Python `digitpart`: digits with single underscores allowed
between digits (the CPython literal grammar `digit (["_"] digit)*`),
parameterized by the digit class.  Returns the digit values read and the
remaining input. -/
def lexDigits (isD : Char → Bool) (val : Char → Nat) : List Char → List Nat × List Char
  | c :: '_' :: d :: rest =>
    if isD c then
      if isD d then
        let (ds, r) := lexDigits isD val (d :: rest)
        (val c :: ds, r)
      else ([val c], '_' :: d :: rest)
    else ([], c :: '_' :: d :: rest)
  | c :: rest =>
    if isD c then
      let (ds, r) := lexDigits isD val rest
      (val c :: ds, r)
    else ([], c :: rest)
  | [] => ([], [])

/-- Digit list to number in a given base. -/
def natOfDigits (base : Nat) (ds : List Nat) : Nat :=
  ds.foldl (fun a d => a * base + d) 0

/-- Exact rational value of a decimal literal with integer digits `ids`,
fractional digits `fds` and decimal exponent `ex`.  The real code converts
the literal to the nearest binary64; the embedding idealizes binary64
arithmetic as exact rational arithmetic throughout. -/
def decimalFloatVal (ids fds : List Nat) (ex : Int) : Frac :=
  let m : ℤ := (natOfDigits 10 (ids ++ fds) : ℕ)
  let p : Int := ex - fds.length
  if 0 ≤ p then ⟨m * (10 : ℤ) ^ p.toNat, 1⟩ else ⟨m, (10 : ℤ) ^ (-p).toNat⟩

/-- Reads the optional exponent suffix of a decimal literal:
`("e" | "E") ["+" | "-"] digitpart`.  Returns `none` when no well-formed
exponent starts here, in which case the literal ends before the `e`
(CPython instead reports a lexical error for e.g. `1e`, but the juxtaposed
number-then-identifier our tokenizer produces is rejected by the parser,
so the observable outcome — a syntax failure — is identical). -/
def lexExponent (l : List Char) : Option (Int × List Char) :=
  match l with
  | c :: rest =>
    if c == 'e' || c == 'E' then
      match rest with
      | '+' :: r2 =>
        let (eds, r3) := lexDigits Char.isDigit digitVal r2
        if eds = [] then none else some ((natOfDigits 10 eds : ℕ), r3)
      | '-' :: r2 =>
        let (eds, r3) := lexDigits Char.isDigit digitVal r2
        if eds = [] then none else some (-((natOfDigits 10 eds : ℕ) : Int), r3)
      | _ =>
        let (eds, r3) := lexDigits Char.isDigit digitVal rest
        if eds = [] then none else some ((natOfDigits 10 eds : ℕ), r3)
    else none
  | [] => none

/-- Reads the digits of a hex/octal/binary literal after its `0x`/`0o`/`0b`
marker: `(["_"] digit)+`, i.e. one leading underscore is allowed directly
after the marker.  `none` when no digit follows (lexical error). -/
def lexBasedDigits (isD : Char → Bool) (val : Char → Nat) (base : Nat)
    (l : List Char) : Option (PyVal × List Char) :=
  let start := match l with
    | '_' :: d :: rest => if isD d then d :: rest else l
    | _ => l
  let (ds, r) := lexDigits isD val start
  if ds = [] then none else some (.intv ((natOfDigits base ds : ℕ) : ℤ), r)

/-- Reads a decimal integer or float literal following the CPython lexical
grammar (`decinteger`, `pointfloat`, `exponentfloat`, with underscores).
A decimal integer with a leading zero and a nonzero digit is a lexical
error in Python 3 and yields `none`. -/
def lexDecNumber (l : List Char) : Option (PyVal × List Char) :=
  let (ids, r1) := lexDigits Char.isDigit digitVal l
  match r1 with
  | '.' :: r2 =>
    let (fds, r3) := lexDigits Char.isDigit digitVal r2
    if ids = [] && fds = [] then none
    else
      match lexExponent r3 with
      | some (ex, r4) => some (.floatv (decimalFloatVal ids fds ex), r4)
      | none => some (.floatv (decimalFloatVal ids fds 0), r3)
  | _ =>
    if ids = [] then none
    else
      match lexExponent r1 with
      | some (ex, r4) => some (.floatv (decimalFloatVal ids [] ex), r4)
      | none =>
        if ids.head? = some 0 && ids.any (fun d => d ≠ 0) then none
        else some (.intv ((natOfDigits 10 ids : ℕ) : ℤ), r1)

/-- Reads one Python number literal (decimal int/float, or a hex, octal or
binary integer). -/
def lexNumber (l : List Char) : Option (PyVal × List Char) :=
  match l with
  | '0' :: c :: rest =>
    if c == 'x' || c == 'X' then lexBasedDigits isHexDigit hexVal 16 rest
    else if c == 'o' || c == 'O' then lexBasedDigits isOctDigit digitVal 8 rest
    else if c == 'b' || c == 'B' then lexBasedDigits isBinDigit digitVal 2 rest
    else lexDecNumber l
  | _ => lexDecNumber l

/-- Tokens of the expression fragment.  `misc` covers characters the
tokenizer recognizes but the expression grammar never consumes (the
comparison characters, `=`, `!`, `,`, `.`, `:`, `;`); a leftover `misc`
token always makes the parse fail, which matches the observable outcome of
CPython on comparisons, assignments and attribute access: the resulting
tree node is unsupported and the evaluator raises, collapsing to the same
ValueError. -/
inductive Tok where
  | num (v : PyVal)
  | ident (s : String)
  | plus
  | minus
  | star
  | dstar
  | slash
  | dslash
  | percent
  | lparen
  | rparen
  | misc (c : Char)
deriving DecidableEq

/-- Identifier character test (ASCII; a non-ASCII identifier makes this
model reject where CPython would build a Name node that the evaluator then
rejects — the same observable failure). -/
def isIdentChar (c : Char) : Bool := c.isAlphanum || c == '_'

/-- One pass of the tokenizer.  Tab and form feed separate tokens as in the
CPython tokenizer; carriage return, line feed and vertical tab inside the
expression are modeled as lexical errors (CPython accepts a newline only
inside brackets; no claim depends on such inputs).  Any other unknown
character is a lexical error, where CPython would either also fail or build
an unsupported node that the evaluator rejects. -/
def lexTokens (fuel : Nat) (l : List Char) : Option (List Tok) :=
  match fuel with
  | 0 => none
  | fuel + 1 =>
    match l with
    | [] => some []
    | c :: rest =>
      if c == '\t' || c == Char.ofNat 12 then lexTokens fuel rest
      else if c.isDigit then
        match lexNumber l with
        | some (v, r) => (lexTokens fuel r).map (Tok.num v :: ·)
        | none => none
      else if c == '.' then
        match rest with
        | d :: _ =>
          if d.isDigit then
            match lexNumber l with
            | some (v, r) => (lexTokens fuel r).map (Tok.num v :: ·)
            | none => none
          else (lexTokens fuel rest).map (Tok.misc '.' :: ·)
        | [] => (lexTokens fuel rest).map (Tok.misc '.' :: ·)
      else if c.isAlpha || c == '_' then
        (lexTokens fuel (l.dropWhile isIdentChar)).map
          (Tok.ident (String.mk (l.takeWhile isIdentChar)) :: ·)
      else if c == '*' then
        match rest with
        | '*' :: r2 => (lexTokens fuel r2).map (Tok.dstar :: ·)
        | _ => (lexTokens fuel rest).map (Tok.star :: ·)
      else if c == '/' then
        match rest with
        | '/' :: r2 => (lexTokens fuel r2).map (Tok.dslash :: ·)
        | _ => (lexTokens fuel rest).map (Tok.slash :: ·)
      else if c == '+' then (lexTokens fuel rest).map (Tok.plus :: ·)
      else if c == '-' then (lexTokens fuel rest).map (Tok.minus :: ·)
      else if c == '%' then (lexTokens fuel rest).map (Tok.percent :: ·)
      else if c == '(' then (lexTokens fuel rest).map (Tok.lparen :: ·)
      else if c == ')' then (lexTokens fuel rest).map (Tok.rparen :: ·)
      else if c == '<' || c == '>' || c == '=' || c == '!' || c == ',' ||
          c == ':' || c == ';' then
        (lexTokens fuel rest).map (Tok.misc c :: ·)
      else none

/-- Tokenize a normalized expression.  Every token consumes at least one
character, so `length + 1` fuel always suffices. -/
def lex (l : List Char) : Option (List Tok) :=
  lexTokens (l.length + 1) l

/-- Unary operator kinds (`ast.UAdd`, `ast.USub`), the keys of
`SafeEvaluator._unary_ops`. -/
inductive UOp where
  | uadd
  | usub
deriving DecidableEq

/-- Binary operator kinds that can appear in a parsed tree of this
fragment.  The first six are the keys of `SafeEvaluator._binary_ops`;
`floorDiv` (`ast.FloorDiv`, from `//`) parses but has no entry in the
table, so the evaluator rejects it. -/
inductive BOp where
  | add
  | sub
  | mult
  | div
  | mod
  | pow
  | floorDiv
deriving DecidableEq

/-- The syntax tree shapes `SafeEvaluator._eval_node` inspects:
`ast.Constant`, `ast.Name`, `ast.UnaryOp`, `ast.BinOp`.  (The `ast.Expr`
case in the source is dead code: `ast.parse(mode="eval")` never places an
`Expr` node in `tree.body`.) -/
inductive Node where
  | constant (v : PyVal)
  | name (s : String)
  | unaryOp (op : UOp) (operand : Node)
  | binOp (left : Node) (op : BOp) (right : Node)
deriving DecidableEq

mutual

/-- `expr := term (("+" | "-") term)*` — Python a_expr. -/
def parseSum (fuel : Nat) (ts : List Tok) : Option (Node × List Tok) :=
  match fuel with
  | 0 => none
  | fuel + 1 =>
    match parseTerm fuel ts with
    | none => none
    | some (n, r) => parseSumRest fuel n r

/-- Left-associative chain of `+` and `-`. -/
def parseSumRest (fuel : Nat) (acc : Node) (ts : List Tok) : Option (Node × List Tok) :=
  match fuel with
  | 0 => none
  | fuel + 1 =>
    match ts with
    | .plus :: r =>
      match parseTerm fuel r with
      | none => none
      | some (n, r2) => parseSumRest fuel (.binOp acc .add n) r2
    | .minus :: r =>
      match parseTerm fuel r with
      | none => none
      | some (n, r2) => parseSumRest fuel (.binOp acc .sub n) r2
    | _ => some (acc, ts)

/-- `term := factor (("*" | "/" | "//" | "%") factor)*` — Python m_expr. -/
def parseTerm (fuel : Nat) (ts : List Tok) : Option (Node × List Tok) :=
  match fuel with
  | 0 => none
  | fuel + 1 =>
    match parseFactor fuel ts with
    | none => none
    | some (n, r) => parseTermRest fuel n r

/-- Left-associative chain of `*`, `/`, `//`, `%`. -/
def parseTermRest (fuel : Nat) (acc : Node) (ts : List Tok) : Option (Node × List Tok) :=
  match fuel with
  | 0 => none
  | fuel + 1 =>
    match ts with
    | .star :: r =>
      match parseFactor fuel r with
      | none => none
      | some (n, r2) => parseTermRest fuel (.binOp acc .mult n) r2
    | .slash :: r =>
      match parseFactor fuel r with
      | none => none
      | some (n, r2) => parseTermRest fuel (.binOp acc .div n) r2
    | .dslash :: r =>
      match parseFactor fuel r with
      | none => none
      | some (n, r2) => parseTermRest fuel (.binOp acc .floorDiv n) r2
    | .percent :: r =>
      match parseFactor fuel r with
      | none => none
      | some (n, r2) => parseTermRest fuel (.binOp acc .mod n) r2
    | _ => some (acc, ts)

/-- `factor := ("+" | "-") factor | power` — Python u_expr: a leading sign
wraps the whole power, so `-2**2` parses as `-(2**2)`. -/
def parseFactor (fuel : Nat) (ts : List Tok) : Option (Node × List Tok) :=
  match fuel with
  | 0 => none
  | fuel + 1 =>
    match ts with
    | .plus :: r =>
      match parseFactor fuel r with
      | none => none
      | some (n, r2) => some (.unaryOp .uadd n, r2)
    | .minus :: r =>
      match parseFactor fuel r with
      | none => none
      | some (n, r2) => some (.unaryOp .usub n, r2)
    | _ => parsePower fuel ts

/-- `power := atom ["**" factor]` — the exponent is a factor, so `2**-3`
is legal and `**` is right-associative. -/
def parsePower (fuel : Nat) (ts : List Tok) : Option (Node × List Tok) :=
  match fuel with
  | 0 => none
  | fuel + 1 =>
    match parseAtom fuel ts with
    | none => none
    | some (n, r) =>
      match r with
      | .dstar :: r2 =>
        match parseFactor fuel r2 with
        | none => none
        | some (m, r3) => some (.binOp n .pow m, r3)
      | _ => some (n, r)

/-- `atom := NUMBER | NAME | "(" expr ")"`.  The keyword constants
`True`, `False`, `None` become `ast.Constant` nodes as in CPython; every
other name becomes an `ast.Name` node. -/
def parseAtom (fuel : Nat) (ts : List Tok) : Option (Node × List Tok) :=
  match fuel with
  | 0 => none
  | fuel + 1 =>
    match ts with
    | .num v :: r => some (.constant v, r)
    | .ident s :: r =>
      if s = "True" then some (.constant (.boolv true), r)
      else if s = "False" then some (.constant (.boolv false), r)
      else if s = "None" then some (.constant .nonev, r)
      else some (.name s, r)
    | .lparen :: r =>
      match parseSum fuel r with
      | none => none
      | some (n, r2) =>
        match r2 with
        | .rparen :: r3 => some (n, r3)
        | _ => none
    | _ => none

end

/-- Model of `ast.parse(expression, mode="eval")` on the arithmetic
fragment: tokenize, parse one expression, and require that every token is
consumed (eval mode rejects trailing input).  `none` models SyntaxError.
The call depth of the descent grows by at most a constant per token, so
the linear fuel below suffices for every input the grammar accepts. -/
def parsePy (l : List Char) : Option Node :=
  match lex l with
  | none => none
  | some ts =>
    match parseSum (8 * ts.length + 8) ts with
    | some (n, []) => some n
    | _ => none

/-- A Python number during evaluation: `_eval_node` produces int or float
values (a bool constant is arithmetically an int in Python — `bool` is a
subclass of `int` and `isinstance(True, int)` holds — so the embedding
converts it on the spot; `float(True)` and all arithmetic agree with this
conversion). -/
inductive PyNum where
  | intv (n : ℤ)
  | floatv (f : Frac)
deriving DecidableEq

/-- The fraction value of a number. -/
def PyNum.toFrac : PyNum → Frac
  | .intv n => Frac.ofInt n
  | .floatv f => f

/-- The rational value of a number (`float(...)` at the end of
`SafeEvaluator.evaluate`; the conversion of a huge int to binary64 can
raise OverflowError in CPython, which the exact model does not track — no
claim depends on such inputs). -/
def PyNum.toQ (v : PyNum) : ℚ := v.toFrac.toQ

/-- `operator.add`: int + int is an int, otherwise a float. -/
def pyAdd : PyNum → PyNum → PyNum
  | .intv a, .intv b => .intv (a + b)
  | a, b => .floatv (a.toFrac.add b.toFrac)

/-- `operator.sub`. -/
def pySub : PyNum → PyNum → PyNum
  | .intv a, .intv b => .intv (a - b)
  | a, b => .floatv (a.toFrac.sub b.toFrac)

/-- `operator.mul`. -/
def pyMul : PyNum → PyNum → PyNum
  | .intv a, .intv b => .intv (a * b)
  | a, b => .floatv (a.toFrac.mul b.toFrac)

/-- `operator.truediv`: always a float; ZeroDivisionError when the right
operand is exactly 0. -/
def pyDiv (a b : PyNum) : Except PyExc PyNum :=
  if b.toFrac.isZero then .error .zeroDivisionError
  else .ok (.floatv (a.toFrac.div b.toFrac))

/-- `operator.mod`: ZeroDivisionError when the right operand is exactly 0;
otherwise `a - b * floor(a / b)` (the sign follows the divisor), an int
for int operands and a float otherwise.  `Int.fmod` is exactly the
floor-convention remainder. -/
def pyMod : PyNum → PyNum → Except PyExc PyNum
  | .intv a, .intv b =>
    if b = 0 then .error .zeroDivisionError else .ok (.intv (Int.fmod a b))
  | a, b =>
    if b.toFrac.isZero then .error .zeroDivisionError
    else
      let fa := a.toFrac
      let fb := b.toFrac
      .ok (.floatv (fa.sub (fb.mul (Frac.ofInt ((fa.div fb).floor)))))

/-- `operator.pow`, following CPython:
* int ** nonnegative int is an exact int; int ** negative int is a float,
  with ZeroDivisionError for base 0;
* with a float involved, an integral exponent gives an exact power (again
  ZeroDivisionError for `0.0 ** negative`);
* a negative base with a fractional exponent produces a complex number in
  Python 3; the surrounding `float(...)` then raises TypeError, which the
  model raises here (the observable result — the collapsed ValueError —
  is identical);
* base 0 with a fractional exponent: 0 for a positive exponent,
  ZeroDivisionError for a negative one;
* a positive base with a fractional exponent returns an irrational
  binary64 in CPython: the single modelling boundary, `unmodeledPow`. -/
def pyPow : PyNum → PyNum → Except PyExc PyNum
  | .intv a, .intv b =>
    if 0 ≤ b then .ok (.intv (a ^ b.toNat))
    else if a = 0 then .error .zeroDivisionError
    else .ok (.floatv (Frac.pow (Frac.ofInt a) b))
  | a, b =>
    let fa := a.toFrac
    let fb := b.toFrac
    if fb.isInt then
      let e := Int.fdiv fb.num fb.den
      if fa.isZero && e < 0 then .error .zeroDivisionError
      else .ok (.floatv (fa.pow e))
    else if fa.isNeg then .error .typeError
    else if fa.isZero then
      if fb.isNeg then .error .zeroDivisionError else .ok (.floatv ⟨0, 1⟩)
    else .error .unmodeledPow

/-- `SafeEvaluator._binary_ops`: the dispatch table from operator node
kinds to functions.  `ast.FloorDiv` has no entry. -/
def binFn : BOp → Option (PyNum → PyNum → Except PyExc PyNum)
  | .add => some (fun a b => .ok (pyAdd a b))
  | .sub => some (fun a b => .ok (pySub a b))
  | .mult => some (fun a b => .ok (pyMul a b))
  | .div => some pyDiv
  | .pow => some pyPow
  | .mod => some pyMod
  | .floorDiv => none

/-- `SafeEvaluator._unary_ops`: `operator.pos` and `operator.neg`. -/
def unaryFn : UOp → PyNum → PyNum
  | .uadd, v => v
  | .usub, .intv n => .intv (-n)
  | .usub, .floatv f => .floatv f.neg

/-- The message of the ValueError raised by the fallthrough branch of
`SafeEvaluator._eval_node`. -/
def unsupportedMsg : String := "Nicht unterstützter Ausdrucksteil"

/-- The message of the ValueError raised by the `except` clause of
`SafeEvaluator.evaluate`. -/
def invalidMsg : String := "Ungültiger Ausdruck"

namespace SafeEvaluator

/-- `SafeEvaluator._eval_node`: a BinOp whose operator is in the table
evaluates left operand, then right, then applies the table entry; a BinOp
with an operator outside the table falls through to the ValueError at the
end, before evaluating its operands.  A supported UnaryOp evaluates its
operand and applies the operator.  A Constant is accepted exactly when it
is an int (bools included), or float; any other node — in this fragment a
Name or a None constant — raises the fallthrough ValueError. -/
def eval_node : Node → Except PyExc PyNum
  | .binOp l op r =>
    match binFn op with
    | some f => do
      let a ← eval_node l
      let b ← eval_node r
      f a b
    | none => .error (.valueError unsupportedMsg)
  | .unaryOp op e => do
    let a ← eval_node e
    .ok (unaryFn op a)
  | .constant (.intv n) => .ok (.intv n)
  | .constant (.floatv f) => .ok (.floatv f)
  | .constant (.boolv b) => .ok (.intv (if b then 1 else 0))
  | .constant .nonev => .error (.valueError unsupportedMsg)
  | .name _ => .error (.valueError unsupportedMsg)

/-- The body of the `try` block of `SafeEvaluator.evaluate` on a nonempty
normalized expression: `cls._eval_node(ast.parse(e, mode="eval").body)`,
with every internal exception kept distinct.  The final `float(...)` is
applied by `evaluate` below via `PyNum.toQ` (total in the exact model; its
possible TypeError on a complex power result is already raised inside
`pyPow`). -/
def evaluateCore (l : List Char) : Except PyExc PyNum :=
  match parsePy l with
  | none => .error .syntaxError
  | some t => eval_node t

/-- `SafeEvaluator.evaluate`: normalize; an empty normalized string
returns 0.0; otherwise parse and reduce, and — crucially — the blanket
`except Exception` converts every failure, a ZeroDivisionError included,
into the single `ValueError("Ungültiger Ausdruck")`. -/
def evaluate (s : String) : Except PyExc ℚ :=
  let e := normalize s.data
  if e = [] then .ok 0
  else
    match evaluateCore e with
    | .ok v => .ok v.toQ
    | .error _ => .error (.valueError invalidMsg)

end SafeEvaluator

namespace CalculatorApp

/-- The reciprocal transform from `CalculatorApp.apply_reciprocal`:
raises ZeroDivisionError on 0, otherwise `1 / x`. -/
def reciprocal (x : ℚ) : Except PyExc ℚ :=
  if x = 0 then .error .zeroDivisionError else .ok (1 / x)

/-- `math.sqrt` as used by `CalculatorApp.apply_sqrt`: raises
`ValueError("math domain error")` for a negative argument, otherwise the
nonnegative square root (idealized as the exact real square root; the
error behavior, which the claim is about, is exact). -/
noncomputable def math_sqrt (x : ℚ) : Except PyExc ℝ :=
  if x < 0 then .error (.valueError "math domain error") else .ok (Real.sqrt x)

/-- The square transform from `CalculatorApp.apply_square`: `x * x`. -/
def square (x : ℚ) : ℚ := x * x

/-- The percent transform from `CalculatorApp.apply_percent`: `x / 100`. -/
def percent (x : ℚ) : ℚ := x / 100

end CalculatorApp

/-- The largest finite IEEE-754 binary64 value, `(2^53 - 1) * 2^971`
(about `1.798e308`), as an exact rational.  A valid expression whose exact
value exceeds this bound cannot be returned as a finite float by the real
code. -/
def maxFiniteBinary64 : ℚ := ((2 : ℚ) ^ 53 - 1) * 2 ^ 971

/-- Whether a tree contains a construct outside the fragment
`SafeEvaluator._eval_node` supports: a Name node, a None constant, or a
binary operator without an entry in `_binary_ops`. -/
def containsBad : Node → Bool
  | .constant .nonev => true
  | .constant _ => false
  | .name _ => true
  | .unaryOp _ e => containsBad e
  | .binOp l op r => (binFn op).isNone || containsBad l || containsBad r

/-- Whether a run raised an exception. -/
def isErr {ε α : Type} : Except ε α → Bool
  | .error _ => true
  | .ok _ => false

/-- Modelled from the spec: the deletion of every whitespace character
(spaces, tabs, newlines, ...) that the whitespace-removal claim ascribes
to the normalizer, for comparison with the source normalization, which
deletes only the space character. -/
def specDeleteWhitespace (l : List Char) : List Char :=
  l.filter (fun c => !isPySpace c)

/-- Spot checks of the lexical model against CPython behavior: the
normalization keeps an interior tab; `0x10` and `1_000` are legal integer
literals, `01` is not; `1.5e-3` and `1e400` have their exact values. -/
theorem lexical_model_checks :
    normalize " 1 ,2 ".data = ['1', '.', '2'] ∧
    normalize "1\t2".data = ['1', '\t', '2'] ∧
    lexNumber "0x10".data = some (.intv 16, []) ∧
    lexNumber "1_000".data = some (.intv 1000, []) ∧
    lexNumber "01".data = none ∧
    lexNumber "1.5e-3".data = some (.floatv ⟨15, 10000⟩, []) ∧
    lexNumber "1e400".data = some (.floatv ⟨(10 : ℤ) ^ 400, 1⟩, []) := by
  refine ⟨by decide, by decide, by decide, by decide, by decide, by decide, by decide⟩

/-- Spot checks of the parsing model against CPython trees: precedence of
`*` over `+`, parenthesized grouping, an identifier becoming a Name node,
and juxtaposed numbers separated by a tab being a syntax error. -/
theorem parse_model_checks :
    parsePy "2+3*4".data =
      some (.binOp (.constant (.intv 2)) .add
        (.binOp (.constant (.intv 3)) .mult (.constant (.intv 4)))) ∧
    parsePy "(2+3)*4".data =
      some (.binOp (.binOp (.constant (.intv 2)) .add (.constant (.intv 3))) .mult
        (.constant (.intv 4))) ∧
    parsePy "abc".data = some (.name "abc") ∧
    parsePy "1\t2".data = none := by
  refine ⟨by decide, by decide, by decide, by decide⟩

/-- Bridge: a successful core run determines `evaluate`. -/
theorem evaluate_of_core {s : String} {v : PyNum}
    (h1 : normalize s.data ≠ [])
    (h2 : SafeEvaluator.evaluateCore (normalize s.data) = .ok v) :
    SafeEvaluator.evaluate s = .ok v.toQ := by
  simp only [SafeEvaluator.evaluate]
  rw [if_neg h1, h2]

/-- Bridge: any internal failure of the core run collapses to the single
ValueError of the `except` clause. -/
theorem evaluate_err_of_core {s : String} {e : PyExc}
    (h1 : normalize s.data ≠ [])
    (h2 : SafeEvaluator.evaluateCore (normalize s.data) = .error e) :
    SafeEvaluator.evaluate s = .error (.valueError invalidMsg) := by
  simp only [SafeEvaluator.evaluate]
  rw [if_neg h1, h2]

/-- Filtering spaces twice is the same as filtering once. -/
theorem removeSpaces_idem (l : List Char) :
    removeSpaces (removeSpaces l) = removeSpaces l := by
  simp [removeSpaces, List.filter_filter]

/-- The normalization is insensitive to deleting spaces first, because its
first step already deletes every space. -/
theorem normalize_removeSpaces (l : List Char) :
    normalize (removeSpaces l) = normalize l := by
  simp only [normalize, removeSpaces_idem]

/-- Stripping only removes characters. -/
theorem mem_of_mem_pyStrip {c : Char} {l : List Char} (h : c ∈ pyStrip l) : c ∈ l := by
  simp only [pyStrip, List.mem_reverse] at h
  exact (List.dropWhile_sublist _).mem ((List.mem_reverse).mp ((List.dropWhile_sublist _).mem h))

/-- After the comma replacement no comma remains. -/
theorem ne_comma_of_mem_replaceCommas {c : Char} {l : List Char}
    (h : c ∈ replaceCommas l) : c ≠ ',' := by
  simp only [replaceCommas, List.mem_map] at h
  obtain ⟨a, _, ha⟩ := h
  subst ha
  unfold commaToDot
  split
  · decide
  · assumption

/-- A tree containing an unsupported construct always makes
`_eval_node` raise: the evaluation visits nodes left to right and either
reaches the unsupported node and raises its ValueError, or raises some
earlier exception first — in both cases the run fails. -/
theorem containsBad_isErr (t : Node) (h : containsBad t = true) :
    isErr (SafeEvaluator.eval_node t) = true := by
  induction t with
  | constant v =>
    cases v
    case nonev => simp [SafeEvaluator.eval_node, isErr]
    all_goals simp [containsBad] at h
  | name s => simp [SafeEvaluator.eval_node, isErr]
  | unaryOp op e ih =>
    simp only [containsBad] at h
    have h2 := ih h
    cases heq : SafeEvaluator.eval_node e with
    | ok a => rw [heq] at h2; simp [isErr] at h2
    | error err => simp only [SafeEvaluator.eval_node, heq]; rfl
  | binOp l op r ihl ihr =>
    simp only [containsBad] at h
    cases hop : binFn op with
    | none => simp [SafeEvaluator.eval_node, hop, isErr]
    | some f =>
      rw [hop] at h
      simp only [Option.isNone_some, Bool.false_or, Bool.or_eq_true] at h
      cases heql : SafeEvaluator.eval_node l with
      | error err => simp only [SafeEvaluator.eval_node, hop, heql]; rfl
      | ok a =>
        have hr : containsBad r = true := by
          rcases h with h | h
          · have := ihl h; rw [heql] at this; simp [isErr] at this
          · exact h
        have h2 := ihr hr
        cases heqr : SafeEvaluator.eval_node r with
        | ok b => rw [heqr] at h2; simp [isErr] at h2
        | error err =>
          simp only [SafeEvaluator.eval_node, hop, heql, heqr]; rfl

/-- The empty token list parses to nothing (needed to rule the empty
normalized string out of parse-success hypotheses). -/
theorem parsePy_nil : parsePy ([] : List Char) = none := by decide

/-- C1: the claim expects `evaluate("1/0")` to fail with DivisionByZero as
distinguished from MalformedExpression.  Inside the tree reduction the
division by zero does raise ZeroDivisionError (first conjunct), but the
blanket `except Exception` of `SafeEvaluator.evaluate` converts it into
the very same `ValueError("Ungültiger Ausdruck")` that malformed input
such as `"abc"` produces (second and third conjuncts): the caller cannot
distinguish the two, and the dedicated ZeroDivisionError handler in
`CalculatorApp.evaluate` is unreachable. -/
theorem divisionByZero_collapsed_to_malformed :
    SafeEvaluator.evaluateCore (normalize "1/0".data) = .error .zeroDivisionError ∧
    SafeEvaluator.evaluate "1/0" = .error (.valueError invalidMsg) ∧
    SafeEvaluator.evaluate "abc" = .error (.valueError invalidMsg) := by
  refine ⟨by decide, ?_, ?_⟩
  · exact evaluate_err_of_core (e := .zeroDivisionError) (by decide) (by decide)
  · exact evaluate_err_of_core (e := .valueError unsupportedMsg) (by decide) (by decide)

/-- C2 counterexample: the input `"0x10"` is a number form other than a
decimal literal, yet `evaluate` accepts it and returns 16.0 — the Python
literal grammar admits hexadecimal integers and the evaluator sees an
ordinary int constant. -/
theorem hexadecimal_literal_accepted :
    SafeEvaluator.evaluate "0x10" = .ok 16 := by
  rw [evaluate_of_core (v := .intv 16) (by decide) (by decide)]
  norm_num [PyNum.toQ, PyNum.toFrac, Frac.toQ, Frac.ofInt]

/-- C2 amended: an input whose parse produces a node outside the supported
fragment (an identifier, a None constant, an operator without a table
entry — function calls, comparisons and the like already fail to parse),
or whose nonempty normalized form fails to parse at all (assignment,
stray tokens, unbalanced parentheses), makes `evaluate` fail with the
MalformedExpression error, `ValueError("Ungültiger Ausdruck")`. -/
theorem unsupported_constructs_rejected :
    (∀ (s : String) (t : Node),
        parsePy (normalize s.data) = some t → containsBad t = true →
        SafeEvaluator.evaluate s = .error (.valueError invalidMsg)) ∧
    (∀ s : String,
        parsePy (normalize s.data) = none → normalize s.data ≠ [] →
        SafeEvaluator.evaluate s = .error (.valueError invalidMsg)) := by
  constructor
  · intro s t hp hb
    have hne : normalize s.data ≠ [] := by
      intro he
      rw [he, parsePy_nil] at hp
      exact Option.noConfusion hp
    have herr := containsBad_isErr t hb
    cases heq : SafeEvaluator.eval_node t with
    | ok a => rw [heq] at herr; simp [isErr] at herr
    | error err =>
      apply evaluate_err_of_core (e := err) hne
      simp [SafeEvaluator.evaluateCore, hp, heq]
  · intro s hp hne
    apply evaluate_err_of_core (e := .syntaxError) hne
    simp [SafeEvaluator.evaluateCore, hp]

/-- C2 witness: the spec example `"abc"` parses to a Name node and is
rejected. -/
theorem unsupported_constructs_rejected_witness :
    SafeEvaluator.evaluate "abc" = .error (.valueError invalidMsg) :=
  unsupported_constructs_rejected.1 "abc" (.name "abc") (by decide) (by decide)

/-- C3: the valid expression `"1e400"` — a single numeric literal —
evaluates without any error to the exact value 10 ^ 400, which exceeds the
largest finite binary64; the float that the real code returns for it is
therefore the non-finite `inf`, with no defined error raised (the spec
requires a finite float or a defined error). -/
theorem literal_1e400_exceeds_binary64 :
    SafeEvaluator.evaluate "1e400" = .ok ((10 : ℚ) ^ 400) ∧
    maxFiniteBinary64 < (10 : ℚ) ^ 400 := by
  constructor
  · rw [evaluate_of_core (v := .floatv ⟨(10 : ℤ) ^ 400, 1⟩) (by decide) (by decide)]
    simp [PyNum.toQ, PyNum.toFrac, Frac.toQ]
  · norm_num [maxFiniteBinary64]

/-- C4: exponentiation binds tighter than the leading unary sign:
`"-2**2"` parses as `-(2**2)` (first conjunct, the literal tree), and
`evaluate("2**3") == 8.0`, `evaluate("-2**2") == -4.0`. -/
theorem power_binds_tighter_than_unary_sign :
    parsePy (normalize "-2**2".data) =
      some (.unaryOp .usub (.binOp (.constant (.intv 2)) .pow (.constant (.intv 2)))) ∧
    SafeEvaluator.evaluate "2**3" = .ok 8 ∧
    SafeEvaluator.evaluate "-2**2" = .ok (-4) := by
  refine ⟨by decide, ?_, ?_⟩
  · rw [evaluate_of_core (v := .intv 8) (by decide) (by decide)]
    norm_num [PyNum.toQ, PyNum.toFrac, Frac.toQ, Frac.ofInt]
  · rw [evaluate_of_core (v := .intv (-4)) (by decide) (by decide)]
    norm_num [PyNum.toQ, PyNum.toFrac, Frac.toQ, Frac.ofInt]

/-- C6: the derived unary transforms layered on the evaluator:
reciprocal fails with ZeroDivisionError exactly on 0 and returns `1 / v`
otherwise; `math.sqrt` fails with the ValueError("math domain error") —
the DomainError of the spec — exactly on negative input; square is total
with `square(-3) = 9`; percent is total and divides by 100. -/
theorem derived_unary_transforms :
    (∀ v : ℚ, CalculatorApp.reciprocal v = .error .zeroDivisionError ↔ v = 0) ∧
    (∀ v : ℚ, v ≠ 0 → CalculatorApp.reciprocal v = .ok (1 / v)) ∧
    (∀ v : ℚ,
      CalculatorApp.math_sqrt v = .error (.valueError "math domain error") ↔ v < 0) ∧
    CalculatorApp.square (-3) = 9 ∧
    (∀ v : ℚ, CalculatorApp.percent v = v / 100) := by
  refine ⟨?_, ?_, ?_, by norm_num [CalculatorApp.square], fun v => rfl⟩
  · intro v
    unfold CalculatorApp.reciprocal
    split <;> simp_all
  · intro v hv
    unfold CalculatorApp.reciprocal
    simp [hv]
  · intro v
    unfold CalculatorApp.math_sqrt
    split <;> simp_all

/-- C6 witness: reciprocal of 0 fails with ZeroDivisionError, reciprocal
of 2 is 1/2, square root of -1 fails with the domain ValueError. -/
theorem derived_unary_transforms_witness :
    CalculatorApp.reciprocal 0 = .error .zeroDivisionError ∧
    CalculatorApp.reciprocal 2 = .ok (1 / 2) ∧
    CalculatorApp.math_sqrt (-1) = .error (.valueError "math domain error") :=
  ⟨(derived_unary_transforms.1 0).mpr rfl,
   derived_unary_transforms.2.1 2 (by norm_num),
   (derived_unary_transforms.2.2.1 (-1)).mpr (by norm_num)⟩

/-- C7: every input whose normalized form is empty evaluates to 0.0
without failing (the documented special case). -/
theorem empty_normalized_evaluates_to_zero (s : String)
    (h : normalize s.data = []) : SafeEvaluator.evaluate s = .ok 0 := by
  simp [SafeEvaluator.evaluate, h]

/-- C7 witness: the empty string normalizes to the empty string and
evaluates to 0.0. -/
theorem empty_normalized_evaluates_to_zero_witness :
    normalize "".data = [] ∧ SafeEvaluator.evaluate "" = .ok 0 :=
  ⟨by decide, empty_normalized_evaluates_to_zero "" (by decide)⟩

/-- C8: multiplication binds tighter than addition, and parentheses
override that precedence: `evaluate("2+3*4") == 14.0` and
`evaluate("(2+3)*4") == 20.0`. -/
theorem precedence_and_parentheses :
    SafeEvaluator.evaluate "2+3*4" = .ok 14 ∧
    SafeEvaluator.evaluate "(2+3)*4" = .ok 20 := by
  constructor
  · rw [evaluate_of_core (v := .intv 14) (by decide) (by decide)]
    norm_num [PyNum.toQ, PyNum.toFrac, Frac.toQ, Frac.ofInt]
  · rw [evaluate_of_core (v := .intv 20) (by decide) (by decide)]
    norm_num [PyNum.toQ, PyNum.toFrac, Frac.toQ, Frac.ofInt]

/-- C9 counterexample: the normalization does not remove every whitespace
character.  Deleting all whitespace from `"1\t2"` gives `"12"`, which
evaluates to 12.0, but `evaluate("1\t2")` itself fails: the interior tab
survives normalization and the two juxtaposed numbers are a syntax
error — so `evaluate(s)` differs from `evaluate` of the
whitespace-deleted string. -/
theorem whitespace_removal_counterexample :
    specDeleteWhitespace "1\t2".data = "12".data ∧
    SafeEvaluator.evaluate "1\t2" = .error (.valueError invalidMsg) ∧
    SafeEvaluator.evaluate "12" = .ok 12 := by
  refine ⟨by decide, ?_, ?_⟩
  · exact evaluate_err_of_core (e := .syntaxError) (by decide) (by decide)
  · rw [evaluate_of_core (v := .intv 12) (by decide) (by decide)]
    norm_num [PyNum.toQ, PyNum.toFrac, Frac.toQ, Frac.ofInt]

/-- C9 amended: the normalization removes every space character (and
strips leading and trailing whitespace): for every raw input, evaluating
it and evaluating the same input with all spaces deleted give the same
result. -/
theorem space_removal_invariance (s : String) :
    SafeEvaluator.evaluate s = SafeEvaluator.evaluate (String.mk (removeSpaces s.data)) := by
  have h : normalize (String.mk (removeSpaces s.data)).data = normalize s.data :=
    normalize_removeSpaces s.data
  simp only [SafeEvaluator.evaluate, h]

/-- C10: `SafeEvaluator.evaluate` replaces every comma with a period
before parsing — no comma ever reaches the parser (first conjunct, over
all inputs) — and consequently `evaluate("1,5") == 1.5` and
`evaluate("(1,2)") == 1.2`. -/
theorem commas_become_periods :
    (∀ s : String, (normalize s.data).contains ',' = false) ∧
    SafeEvaluator.evaluate "1,5" = .ok (3 / 2) ∧
    SafeEvaluator.evaluate "(1,2)" = .ok (6 / 5) := by
  refine ⟨?_, ?_, ?_⟩
  · intro s
    have h : ',' ∉ normalize s.data := fun hmem =>
      ne_comma_of_mem_replaceCommas (mem_of_mem_pyStrip hmem) rfl
    simpa using h
  · rw [evaluate_of_core (v := .floatv ⟨15, 10⟩) (by decide) (by decide)]
    norm_num [PyNum.toQ, PyNum.toFrac, Frac.toQ]
  · rw [evaluate_of_core (v := .floatv ⟨12, 10⟩) (by decide) (by decide)]
    norm_num [PyNum.toQ, PyNum.toFrac, Frac.toQ]

end Rechner
